import Mathlib

/-!
Verification development for the blog-style content API backend
(`backend/app`): authentication and session-token subsystem, email
verification lifecycle, ownership-authorization for posts/comments, and the
media-cleanup protocol. Python functions are shallowly embedded as
executable Lean functions; the relational store is embedded as an
association list keyed by integer ids; machine-level concerns (HTML bodies,
logging) are abstracted into outcome constructors.
-/

namespace Fullstack

/-- Python truthiness of an optional string: `None` and the empty string
are falsy, every other string is truthy (the `if not x:` idiom used
throughout the source). -/
def pyTruthy : Option String → Bool
  | none => false
  | some s => s ≠ ""

/-- A user row (`models.User`, fastapi-users base table): email, password
hash and the three flags, plus the optional full name. Ids are kept
outside the record, as keys of the store. -/
structure UserRec where
  email : String
  hashed_password : String
  is_active : Bool
  is_verified : Bool
  is_superuser : Bool
  full_name : Option String
  deriving DecidableEq, Repr

/-- The users table: an association list from user id to row.
User ids are modelled as naturals standing in for UUIDs. -/
abbrev UserStore := List (Nat × UserRec)

/-- Lookup by primary key (`user_db.get`, `select ... where id = ...`). -/
def getUser (db : UserStore) (uid : Nat) : Option UserRec :=
  (db.find? (fun e => e.1 == uid)).map (fun e => e.2)

/-- Atomic field update of one row (`user_db.update`). -/
def updateUser (db : UserStore) (uid : Nat) (u : UserRec) : UserStore :=
  db.map (fun e => if e.1 == uid then (uid, u) else e)

/-- An email-verification token as seen by `jwt.decode`: whether the string
parses structurally, whether the signature verifies against the secret, and
the claims it carries (`sub`, `aud`, `exp` as a Unix timestamp). The
signed string itself is abstracted into this record. -/
structure VToken where
  wellFormed : Bool
  sigValid : Bool
  sub : Option String
  aud : Option String
  exp : Nat
  deriving DecidableEq, Repr

/-- Result of `jwt.decode` grouped by the exception it raises:
`DecodeError`/`InvalidSignatureError` (both `InvalidTokenError`) are
`malformed`, `ExpiredSignatureError` is `expired`, `InvalidAudienceError`
is `audienceMismatch`. -/
inductive JwtResult where
  | ok (sub : Option String)
  | expired
  | malformed
  | audienceMismatch
  deriving DecidableEq, Repr

/-- PyJWT `jwt.decode(token, secret, audience, algorithms)` semantics, in
PyJWT's checking order: structure and signature first, then the `exp`
claim, then the `aud` claim. -/
def jwtDecode (t : VToken) (expectedAud : String) (now : Nat) : JwtResult :=
  if t.wellFormed = false ∨ t.sigValid = false then .malformed
  else if t.exp ≤ now then .expired
  else if t.aud ≠ some expectedAud then .audienceMismatch
  else .ok t.sub

/-- The verification token issued at registration
(`UserManager.on_after_register`): subject is the user id as a string,
audience is the fastapi-users verify audience, expiry 24 hours out. -/
def issueVerificationToken (uid : Nat) (now : Nat) : VToken :=
  { wellFormed := true
    sigValid := true
    sub := some (toString uid)
    aud := some "fastapi-users:verify"
    exp := now + 86400 }

/-- The five user-facing outcome pages of `GET /auth/verify`
(`verify_email_get`): the success page, the already-verified page, the
expired page, the invalid-token page, and the catch-all
verification-failed page of the final `except Exception` handler. -/
inductive VerifyOutcome where
  | success
  | alreadyVerified
  | expired
  | invalid
  | error
  deriving DecidableEq, Repr

/-- Observable result of one `GET /auth/verify` request: the rendered
outcome, the users table afterwards, and how many row writes
(`user_db.update` calls) were performed. -/
structure VerifyResult where
  outcome : VerifyOutcome
  db : UserStore
  writes : Nat
  deriving DecidableEq, Repr

/-- Digit-string parser used to model Python `UUID(s)` on the id strings
this system produces: accumulates decimal digits, fails on any other
character. -/
def digitsToNat : List Char → Nat → Option Nat
  | [], acc => some acc
  | c :: cs, acc => if c.isDigit then digitsToNat cs (acc * 10 + (c.toNat - 48)) else none

/-- Stand-in for Python `UUID(s)`: parses the subject string back to a
user id, `none` when the string is not a valid id (in which case the
source's `UUID(...)` raises `ValueError`). -/
def uuidParse (s : String) : Option Nat :=
  match s.data with
  | [] => none
  | cs => digitsToNat cs 0

/-- Body of `verify_email_get` after a successful decode: the
`payload.get("sub")` truthiness check, the `UUID(...)` parse, the user
lookup, the already-verified test, and the single-write success path. A
missing/empty `sub`, an unparseable id, and an unknown user all raise
inside the `try` block (`HTTPException` or `ValueError`), and every such
raise is caught by the trailing `except Exception` handler, rendering the
catch-all error page. -/
def verifyLookup (subClaim : Option String) (db : UserStore) : VerifyResult :=
  match subClaim with
  | none => ⟨.error, db, 0⟩
  | some s =>
    if s = "" then ⟨.error, db, 0⟩
    else
      match uuidParse s with
      | none => ⟨.error, db, 0⟩
      | some uid =>
        match getUser db uid with
        | none => ⟨.error, db, 0⟩
        | some u =>
          if u.is_verified then ⟨.alreadyVerified, db, 0⟩
          else ⟨.success, updateUser db uid { u with is_verified := true }, 1⟩

/-- `verify_email_get` (app.py): decode the token with the verify
audience; `ExpiredSignatureError` renders the expired page,
`InvalidTokenError` the invalid page; a successful decode proceeds to the
subject lookup. -/
def verify_email_get (token : VToken) (now : Nat) (db : UserStore) : VerifyResult :=
  match jwtDecode token "fastapi-users:verify" now with
  | .expired => ⟨.expired, db, 0⟩
  | .malformed => ⟨.invalid, db, 0⟩
  | .audienceMismatch => ⟨.invalid, db, 0⟩
  | .ok subClaim => verifyLookup subClaim db

theorem verifyLookup_outcome (subClaim : Option String) (db : UserStore) :
    (verifyLookup subClaim db).outcome ≠ .expired ∧
    (verifyLookup subClaim db).outcome ≠ .invalid := by
  unfold verifyLookup
  rcases subClaim with _ | s
  · simp
  · by_cases hs : s = ""
    · simp [hs]
    · rcases hp : uuidParse s with _ | uid
      · simp [hs, hp]
      · rcases hu : getUser db uid with _ | u
        · simp [hs, hp, hu]
        · rcases hv : u.is_verified <;> simp [hs, hp, hu, hv]

theorem getUser_updateUser (db : UserStore) (uid : Nat) (v : UserRec) :
    getUser (updateUser db uid v) uid = (getUser db uid).map (fun _ => v) := by
  induction db with
  | nil => rfl
  | cons e tl ih =>
    by_cases h : e.1 = uid
    · simp [getUser, updateUser, List.find?, h]
    · have h' : (e.1 == uid) = false := by simp [h]
      simp only [getUser, updateUser, List.map_cons] at ih ⊢
      rw [h', if_neg (by simp [h])]
      simp only [List.find?]
      rw [h']
      exact ih

/-- C1: redeeming a valid verification token for an already-verified user
returns the already-verified outcome with zero writes, and redeeming the
same valid token a second time is idempotent: whatever the first
redemption did, the second returns the already-verified outcome, leaves
the store unchanged and performs zero writes. -/
theorem verify_redeem_idempotent
    (tok : VToken) (now : Nat) (db : UserStore) (s : String) (uid : Nat) (u : UserRec)
    (hw : tok.wellFormed = true) (hsig : tok.sigValid = true)
    (hexp : now < tok.exp) (haud : tok.aud = some "fastapi-users:verify")
    (hsub : tok.sub = some s) (hse : s ≠ "") (hparse : uuidParse s = some uid)
    (hu : getUser db uid = some u) :
    (u.is_verified = true →
      verify_email_get tok now db = ⟨.alreadyVerified, db, 0⟩) ∧
    verify_email_get tok now (verify_email_get tok now db).db =
      ⟨.alreadyVerified, (verify_email_get tok now db).db, 0⟩ := by
  have hdec : jwtDecode tok "fastapi-users:verify" now = .ok (some s) := by
    simp [jwtDecode, hw, hsig, haud, hsub, Nat.not_le.mpr hexp]
  constructor
  · intro hv
    simp [verify_email_get, verifyLookup, hdec, hse, hparse, hu, hv]
  · by_cases hv : u.is_verified = true
    · simp [verify_email_get, verifyLookup, hdec, hse, hparse, hu, hv]
    · have hv' : u.is_verified = false := by
        cases hb : u.is_verified
        · rfl
        · exact absurd hb hv
      have h1 : verify_email_get tok now db =
          ⟨.success, updateUser db uid { u with is_verified := true }, 1⟩ := by
        simp [verify_email_get, verifyLookup, hdec, hse, hparse, hu, hv']
      have h2 : getUser (updateUser db uid { u with is_verified := true }) uid =
          some { u with is_verified := true } := by
        rw [getUser_updateUser, hu]
        rfl
      rw [h1]
      simp [verify_email_get, verifyLookup, hdec, hse, hparse, h2]

/-- C1 witness: a concrete valid token, store and verified user on which
the idempotence theorem applies. -/
theorem verify_redeem_idempotent_witness :
    (let tok : VToken :=
      { wellFormed := true, sigValid := true, sub := some "7",
        aud := some "fastapi-users:verify", exp := 100 }
     let u : UserRec := ⟨"a@b.c", "h", true, true, false, none⟩
     let db : UserStore := [(7, u)]
     (u.is_verified = true →
       verify_email_get tok 3 db = ⟨.alreadyVerified, db, 0⟩) ∧
     verify_email_get tok 3 (verify_email_get tok 3 db).db =
       ⟨.alreadyVerified, (verify_email_get tok 3 db).db, 0⟩) :=
  verify_redeem_idempotent _ 3 _ "7" 7 _
    (by decide) (by decide) (by decide) (by decide) (by decide) (by decide)
    (by decide) (by decide)

/-- C6 (amended): redeeming a structurally valid, unexpired,
correctly-signed verification token whose subject user id is absent from
the store yields the catch-all error outcome — the `HTTPException` raised
for the missing user is caught by the handler's own trailing
`except Exception` — which is distinct from the invalid outcome shown for
a malformed token; no write is performed. -/
theorem verify_user_not_found_error
    (tok : VToken) (now : Nat) (db : UserStore) (s : String) (uid : Nat)
    (hw : tok.wellFormed = true) (hsig : tok.sigValid = true)
    (hexp : now < tok.exp) (haud : tok.aud = some "fastapi-users:verify")
    (hsub : tok.sub = some s) (hse : s ≠ "") (hparse : uuidParse s = some uid)
    (hu : getUser db uid = none) :
    verify_email_get tok now db = ⟨.error, db, 0⟩ ∧
    VerifyOutcome.error ≠ VerifyOutcome.invalid := by
  have hdec : jwtDecode tok "fastapi-users:verify" now = .ok (some s) := by
    simp [jwtDecode, hw, hsig, haud, hsub, Nat.not_le.mpr hexp]
  exact ⟨by simp [verify_email_get, verifyLookup, hdec, hse, hparse, hu], by decide⟩

/-- C6 witness: the amended theorem applied to a concrete valid token
whose subject id 42 is absent from the (empty) store. -/
theorem verify_user_not_found_error_witness :
    verify_email_get
      { wellFormed := true, sigValid := true, sub := some "42",
        aud := some "fastapi-users:verify", exp := 100 } 3 [] =
      ⟨.error, [], 0⟩ ∧
    VerifyOutcome.error ≠ VerifyOutcome.invalid :=
  verify_user_not_found_error _ 3 [] "42" 42
    (by decide) (by decide) (by decide) (by decide) (by decide) (by decide)
    (by decide) (by decide)

/-- C6 counterexample: on a valid, unexpired, correctly-signed token whose
subject user id 42 does not exist in the store, the redemption outcome is
not the invalid outcome (it is the catch-all error outcome), refuting the
claim as stated. -/
theorem verify_user_not_found_counterexample :
    (verify_email_get
      { wellFormed := true, sigValid := true, sub := some "42",
        aud := some "fastapi-users:verify", exp := 100 } 3 []).outcome ≠
      VerifyOutcome.invalid ∧
    (verify_email_get
      { wellFormed := true, sigValid := true, sub := some "42",
        aud := some "fastapi-users:verify", exp := 100 } 3 []).outcome =
      VerifyOutcome.error := by
  decide

/-- C7: an expired (well-formed, correctly-signed) verification token
yields the expired outcome, whatever its audience; a structurally invalid
or wrongly-signed token yields the invalid outcome, and so does an
unexpired token with a wrong or missing audience claim; the expired and
invalid outcomes are distinct constructors, never confused. The
characterizations are stated as equivalences, fixing the precedence the
code inherits from PyJWT: signature before expiry, expiry before
audience. -/
theorem verify_expired_distinct_from_invalid
    (tok : VToken) (now : Nat) (db : UserStore) :
    ((verify_email_get tok now db).outcome = .expired ↔
      (tok.wellFormed = true ∧ tok.sigValid = true ∧ tok.exp ≤ now)) ∧
    ((verify_email_get tok now db).outcome = .invalid ↔
      (tok.wellFormed = false ∨ tok.sigValid = false ∨
        (tok.wellFormed = true ∧ tok.sigValid = true ∧ now < tok.exp ∧
          tok.aud ≠ some "fastapi-users:verify"))) ∧
    VerifyOutcome.expired ≠ VerifyOutcome.invalid := by
  refine ⟨?_, ?_, by decide⟩ <;>
    unfold verify_email_get jwtDecode <;>
    by_cases hws : tok.wellFormed = false ∨ tok.sigValid = false
  · simp only [if_pos hws]
    simp [hws]
    intro h1 h2
    rcases hws with h | h <;> simp [h1, h2] at h
  · have hw : tok.wellFormed = true := by
      rcases h : tok.wellFormed
      · exact absurd (Or.inl h) hws
      · rfl
    have hsg : tok.sigValid = true := by
      rcases h : tok.sigValid
      · exact absurd (Or.inr h) hws
      · rfl
    simp only [if_neg hws]
    by_cases hex : tok.exp ≤ now
    · simp [hex, hw, hsg]
    · by_cases hau : tok.aud = some "fastapi-users:verify"
      · have h1 := (verifyLookup_outcome tok.sub db).1
        simp [hex, hau, h1]
      · simp [hex, hau]
  · simp only [if_pos hws]
    simp [hws]
    tauto
  · have hw : tok.wellFormed = true := by
      rcases h : tok.wellFormed
      · exact absurd (Or.inl h) hws
      · rfl
    have hsg : tok.sigValid = true := by
      rcases h : tok.sigValid
      · exact absurd (Or.inr h) hws
      · rfl
    simp only [if_neg hws]
    by_cases hex : tok.exp ≤ now
    · simp [hex, hw, hsg, Nat.not_lt.mpr hex]
    · by_cases hau : tok.aud = some "fastapi-users:verify"
      · have h2 := (verifyLookup_outcome tok.sub db).2
        simp [hex, hau, h2, hw, hsg]
      · simp [hex, hau, hw, hsg, Nat.lt_of_not_le hex]

/-- C7 witness: the characterization applied to a concrete expired token
over the empty store. -/
theorem verify_expired_distinct_from_invalid_witness :
    (((verify_email_get
        { wellFormed := true, sigValid := true, sub := some "7",
          aud := some "fastapi-users:verify", exp := 5 } 9 []).outcome = .expired ↔
      (true = true ∧ true = true ∧ 5 ≤ 9)) ∧
    ((verify_email_get
        { wellFormed := true, sigValid := true, sub := some "7",
          aud := some "fastapi-users:verify", exp := 5 } 9 []).outcome = .invalid ↔
      (true = false ∨ true = false ∨
        (true = true ∧ true = true ∧ 9 < 5 ∧
          (some "fastapi-users:verify" : Option String) ≠ some "fastapi-users:verify"))) ∧
    VerifyOutcome.expired ≠ VerifyOutcome.invalid) :=
  verify_expired_distinct_from_invalid
    { wellFormed := true, sigValid := true, sub := some "7",
      aud := some "fastapi-users:verify", exp := 5 } 9 []

/-- Scheme skipper for the model of `urllib.parse.urlparse(...).path`:
finds the `://` marker and returns what follows it, `none` when the URL
has no scheme marker. -/
def afterSchemeMarker : List Char → Option (List Char)
  | [] => none
  | ':' :: '/' :: '/' :: rest => some rest
  | _ :: rest => afterSchemeMarker rest

/-- Path extractor: everything from the first slash after the authority
component, empty when the URL has no path. -/
def pathFrom : List Char → List Char
  | [] => []
  | '/' :: rest => '/' :: rest
  | _ :: rest => pathFrom rest

/-- Model of `urllib.parse.urlparse(file_url).path` for the URL shapes
this system handles: with a scheme, the part of the string from the first
slash after the host; without one, the whole string. -/
def urlparsePath (u : String) : String :=
  match afterSchemeMarker u.data with
  | none => u
  | some rest => ⟨pathFrom rest⟩

/-- Character-level prefix test, the model of `str.startswith`. -/
def startsWithChars : List Char → List Char → Bool
  | [], _ => true
  | _ :: _, [] => false
  | a :: as, b :: bs => a == b && startsWithChars as bs

/-- Model of Python `s.startswith(p)`. -/
def startsWithStr (s p : String) : Bool :=
  startsWithChars p.data s.data

/-- State of the external ImageKit media store as the cleanup routine can
observe it: the files it would report for a path lookup (path, file id),
plus the paths/file ids on which the client library raises. -/
structure ImageKitClient where
  files : List (String × String)
  listRaises : List String
  deleteRaises : List String
  deriving DecidableEq, Repr

/-- Media configuration surface of `utils.py`: the configured
`IMAGEKIT_URL_ENDPOINT` and the module-level client, which is `None` when
initialization failed (`imagekit_client.py`). -/
structure MediaEnv where
  endpoint : String
  client : Option ImageKitClient
  deriving DecidableEq, Repr

/-- A call issued against the media store: a `list_files` lookup by path
or a `delete_file` by file id. -/
inductive StoreCall where
  | listFiles (path : String)
  | deleteFileCall (fileId : String)
  deriving DecidableEq, Repr

/-- Terminal outcome of one `delete_file_from_imagekit` invocation; every
constructor is a logged return, none propagates an exception. -/
inductive DeleteOutcome where
  | skippedNoUrlOrClient
  | skippedNotImagekit
  | deleted (fileId : String)
  | notFoundAtPath
  | errorLogged
  deriving DecidableEq, Repr

/-- `delete_file_from_imagekit` (utils.py): skip when the URL is falsy or
the client is uninitialized; skip when the URL does not start with the
configured endpoint; otherwise look the path up, delete the first match by
file id, log-and-return when there is no match, and log-and-return when
the client raises (the `try`/`except Exception` wrapper). Returns the
outcome together with the list of media-store calls issued. -/
def delete_file_from_imagekit (env : MediaEnv) (file_url : String) :
    DeleteOutcome × List StoreCall :=
  match env.client with
  | none => (.skippedNoUrlOrClient, [])
  | some ik =>
    if file_url = "" then (.skippedNoUrlOrClient, [])
    else if startsWithStr file_url env.endpoint = false then (.skippedNotImagekit, [])
    else
      let path := urlparsePath file_url
      if path ∈ ik.listRaises then (.errorLogged, [.listFiles path])
      else
        match ik.files.filter (fun e => e.1 == path) with
        | [] => (.notFoundAtPath, [.listFiles path])
        | f :: _ =>
          if f.2 ∈ ik.deleteRaises then
            (.errorLogged, [.listFiles path, .deleteFileCall f.2])
          else
            (.deleted f.2, [.listFiles path, .deleteFileCall f.2])

/-- C10: a URL that is empty or does not begin with the configured
ImageKit endpoint prefix causes no media-store call at all — no lookup and
no deletion — and the routine returns one of the two skip outcomes rather
than an error. -/
theorem delete_file_skips_foreign_urls (env : MediaEnv) (url : String)
    (h : url = "" ∨ startsWithStr url env.endpoint = false) :
    (delete_file_from_imagekit env url).2 = [] ∧
    ((delete_file_from_imagekit env url).1 = .skippedNoUrlOrClient ∨
      (delete_file_from_imagekit env url).1 = .skippedNotImagekit) := by
  unfold delete_file_from_imagekit
  rcases hc : env.client with _ | ik
  · simp
  · rcases h with h | h
    · simp [h]
    · by_cases h0 : url = ""
      · simp [h0]
      · simp [h0, h]

/-- C10 witness: a non-ImageKit URL against a configured client issues no
store call. -/
theorem delete_file_skips_foreign_urls_witness :
    ("https://other.cdn/x.jpg" = "" ∨
      startsWithStr "https://other.cdn/x.jpg" "https://ik.imagekit.io/me" = false) ∧
    ((delete_file_from_imagekit
        ⟨"https://ik.imagekit.io/me", some ⟨[], [], []⟩⟩ "https://other.cdn/x.jpg").2 = [] ∧
      ((delete_file_from_imagekit
          ⟨"https://ik.imagekit.io/me", some ⟨[], [], []⟩⟩ "https://other.cdn/x.jpg").1 =
          .skippedNoUrlOrClient ∨
        (delete_file_from_imagekit
          ⟨"https://ik.imagekit.io/me", some ⟨[], [], []⟩⟩ "https://other.cdn/x.jpg").1 =
          .skippedNotImagekit)) :=
  ⟨by decide,
   delete_file_skips_foreign_urls
     ⟨"https://ik.imagekit.io/me", some ⟨[], [], []⟩⟩ "https://other.cdn/x.jpg"
     (by decide)⟩

/-- A post row (`models.Post`): title, optional text content, optional
media URLs, owning user id. Timestamps are omitted: no claim depends on
them. -/
structure Post where
  title : String
  content : Option String
  image_url : Option String
  video_url : Option String
  owner_id : Nat
  deriving DecidableEq, Repr

/-- The posts table keyed by integer post id. -/
abbrev PostStore := List (Nat × Post)

def getPost (db : PostStore) (pid : Nat) : Option Post :=
  (db.find? (fun e => e.1 == pid)).map (fun e => e.2)

def putPost (db : PostStore) (pid : Nat) (p : Post) : PostStore :=
  db.map (fun e => if e.1 == pid then (pid, p) else e)

def erasePost (db : PostStore) (pid : Nat) : PostStore :=
  db.filter (fun e => e.1 != pid)

/-- `schemas.PostUpdate` under `model_dump(exclude_unset=True)`: the outer
option is request-payload presence, the inner value is what the field is
set to (`none` clears a nullable column). An explicitly-null `title` is
not modelled: the `title` column is NOT NULL, so that request cannot
commit. -/
structure PostUpdate where
  title : Option String
  content : Option (Option String)
  image_url : Option (Option String)
  video_url : Option (Option String)
  deriving DecidableEq, Repr

/-- The `setattr` loop of `update_post`: fields present in the payload
overwrite the row. -/
def applyPostUpdate (p : Post) (u : PostUpdate) : Post :=
  { p with
    title := u.title.getD p.title
    content := u.content.getD p.content
    image_url := u.image_url.getD p.image_url
    video_url := u.video_url.getD p.video_url }

/-- An HTTP error response (`HTTPException`): status code and detail. -/
structure HttpError where
  status : Nat
  detail : String
  deriving DecidableEq, Repr

/-- Successful result of `PATCH /posts/{id}`: the refreshed row, the table
afterwards, the URLs passed to `delete_file_from_imagekit`, and the
gathered outcomes of those calls. -/
structure PostUpdateOk where
  post : Post
  db : PostStore
  deleteTargets : List String
  results : List (DeleteOutcome × List StoreCall)
  deriving DecidableEq, Repr

/-- `update_post` (posts.py): fetch by id (404 if absent), compare owner
(403 if not the caller), capture the old media values for fields present
in the payload, apply the update and commit, then schedule a deletion for
each captured value that is truthy and differs from the new value. -/
def update_post (db : PostStore) (callerId postId : Nat) (upd : PostUpdate)
    (env : MediaEnv) : Except HttpError PostUpdateOk :=
  match getPost db postId with
  | none => .error ⟨404, "Post not found"⟩
  | some post =>
    if post.owner_id ≠ callerId then
      .error ⟨403, "Not authorized to update this post"⟩
    else
      let old_image_url : Option String :=
        if upd.image_url.isSome then post.image_url else none
      let old_video_url : Option String :=
        if upd.video_url.isSome then post.video_url else none
      let post' := applyPostUpdate post upd
      let imgTasks : List String :=
        match old_image_url with
        | none => []
        | some s => if s ≠ "" ∧ post'.image_url ≠ some s then [s] else []
      let vidTasks : List String :=
        match old_video_url with
        | none => []
        | some s => if s ≠ "" ∧ post'.video_url ≠ some s then [s] else []
      let delete_tasks := imgTasks ++ vidTasks
      .ok ⟨post', putPost db postId post', delete_tasks,
        delete_tasks.map (delete_file_from_imagekit env)⟩

/-- Successful result of `DELETE /posts/{id}`: the table afterwards, the
URLs passed to `delete_file_from_imagekit`, and the gathered outcomes. -/
structure PostDeleteOk where
  db : PostStore
  deleteTargets : List String
  results : List (DeleteOutcome × List StoreCall)
  deriving DecidableEq, Repr

/-- `delete_post` (posts.py): fetch by id (404 if absent), compare owner
(403 if not the caller), capture both media URLs before deleting the row,
commit the deletion, then schedule a deletion for every truthy captured
URL. -/
def delete_post (db : PostStore) (callerId postId : Nat) (env : MediaEnv) :
    Except HttpError PostDeleteOk :=
  match getPost db postId with
  | none => .error ⟨404, "Post not found"⟩
  | some post =>
    if post.owner_id ≠ callerId then
      .error ⟨403, "Not authorized to delete this post"⟩
    else
      let image_url_to_delete := post.image_url
      let video_url_to_delete := post.video_url
      let imgTasks : List String :=
        match image_url_to_delete with
        | none => []
        | some s => if s ≠ "" then [s] else []
      let vidTasks : List String :=
        match video_url_to_delete with
        | none => []
        | some s => if s ≠ "" then [s] else []
      let delete_tasks := imgTasks ++ vidTasks
      .ok ⟨erasePost db postId, delete_tasks,
        delete_tasks.map (delete_file_from_imagekit env)⟩

/-- A comment row (`models.Comment`): content, owning user id, parent
post id. -/
structure CommentRec where
  content : String
  owner_id : Nat
  post_id : Nat
  deriving DecidableEq, Repr

/-- The comments table keyed by integer comment id. -/
abbrev CommentStore := List (Nat × CommentRec)

def getComment (db : CommentStore) (cid : Nat) : Option CommentRec :=
  (db.find? (fun e => e.1 == cid)).map (fun e => e.2)

def putComment (db : CommentStore) (cid : Nat) (c : CommentRec) : CommentStore :=
  db.map (fun e => if e.1 == cid then (cid, c) else e)

def eraseComment (db : CommentStore) (cid : Nat) : CommentStore :=
  db.filter (fun e => e.1 != cid)

/-- `schemas.CommentUpdate` under `exclude_unset`: optional new content.
An explicitly-null content is not modelled (NOT NULL column). -/
structure CommentUpdate where
  content : Option String
  deriving DecidableEq, Repr

/-- `update_comment` (comments.py): fetch by id (404 if absent), compare
owner (403 if not the caller), apply the update and commit. -/
def update_comment (db : CommentStore) (callerId commentId : Nat)
    (upd : CommentUpdate) : Except HttpError (CommentRec × CommentStore) :=
  match getComment db commentId with
  | none => .error ⟨404, "Comment not found"⟩
  | some c =>
    if c.owner_id ≠ callerId then
      .error ⟨403, "Not authorized to update this comment"⟩
    else
      let c' := { c with content := upd.content.getD c.content }
      .ok (c', putComment db commentId c')

/-- `delete_comment` (comments.py): fetch by id (404 if absent), compare
owner (403 if not the caller), delete the row and commit. -/
def delete_comment (db : CommentStore) (callerId commentId : Nat) :
    Except HttpError CommentStore :=
  match getComment db commentId with
  | none => .error ⟨404, "Comment not found"⟩
  | some c =>
    if c.owner_id ≠ callerId then
      .error ⟨403, "Not authorized to delete this comment"⟩
    else
      .ok (eraseComment db commentId)

/-- Success discriminator of a route result. -/
def isOkE {α : Type} : Except HttpError α → Bool
  | .ok _ => true
  | .error _ => false

/-- C2: for every update/delete on a Post or Comment by an authenticated,
active, verified caller (the `current_active_verified_user` gate is the
`callerId` argument): a missing resource yields 404 before any ownership
consideration; an existing resource owned by someone else yields 403; and
the owner's request is permitted. -/
theorem ownership_guard
    (pdb : PostStore) (cdb : CommentStore) (caller pid cid : Nat)
    (pu : PostUpdate) (cu : CommentUpdate) (env : MediaEnv) :
    (getPost pdb pid = none →
      update_post pdb caller pid pu env = .error ⟨404, "Post not found"⟩ ∧
      delete_post pdb caller pid env = .error ⟨404, "Post not found"⟩) ∧
    ((getPost pdb pid).isSome = true →
      (getPost pdb pid).map Post.owner_id ≠ some caller →
      update_post pdb caller pid pu env =
        .error ⟨403, "Not authorized to update this post"⟩ ∧
      delete_post pdb caller pid env =
        .error ⟨403, "Not authorized to delete this post"⟩) ∧
    ((getPost pdb pid).map Post.owner_id = some caller →
      isOkE (update_post pdb caller pid pu env) = true ∧
      isOkE (delete_post pdb caller pid env) = true) ∧
    (getComment cdb cid = none →
      update_comment cdb caller cid cu = .error ⟨404, "Comment not found"⟩ ∧
      delete_comment cdb caller cid = .error ⟨404, "Comment not found"⟩) ∧
    ((getComment cdb cid).isSome = true →
      (getComment cdb cid).map CommentRec.owner_id ≠ some caller →
      update_comment cdb caller cid cu =
        .error ⟨403, "Not authorized to update this comment"⟩ ∧
      delete_comment cdb caller cid =
        .error ⟨403, "Not authorized to delete this comment"⟩) ∧
    ((getComment cdb cid).map CommentRec.owner_id = some caller →
      isOkE (update_comment cdb caller cid cu) = true ∧
      isOkE (delete_comment cdb caller cid) = true) := by
  refine ⟨?_, ?_, ?_, ?_, ?_, ?_⟩
  · intro h
    exact ⟨by simp [update_post, h], by simp [delete_post, h]⟩
  · intro hs hne
    rcases hp : getPost pdb pid with _ | p
    · rw [hp] at hs
      simp at hs
    · rw [hp] at hne
      have hno : p.owner_id ≠ caller := by
        intro he
        exact hne (by simp [he])
      exact ⟨by simp [update_post, hp, hno], by simp [delete_post, hp, hno]⟩
  · intro hown
    rcases hp : getPost pdb pid with _ | p
    · rw [hp] at hown
      simp at hown
    · rw [hp] at hown
      have ho : p.owner_id = caller := by simpa using hown
      exact ⟨by simp [update_post, isOkE, hp, ho], by simp [delete_post, isOkE, hp, ho]⟩
  · intro h
    exact ⟨by simp [update_comment, h], by simp [delete_comment, h]⟩
  · intro hs hne
    rcases hc : getComment cdb cid with _ | c
    · rw [hc] at hs
      simp at hs
    · rw [hc] at hne
      have hno : c.owner_id ≠ caller := by
        intro he
        exact hne (by simp [he])
      exact ⟨by simp [update_comment, hc, hno], by simp [delete_comment, hc, hno]⟩
  · intro hown
    rcases hc : getComment cdb cid with _ | c
    · rw [hc] at hown
      simp at hown
    · rw [hc] at hown
      have ho : c.owner_id = caller := by simpa using hown
      exact ⟨by simp [update_comment, isOkE, hc, ho],
        by simp [delete_comment, isOkE, hc, ho]⟩

/-- Deletion targets of an update result (empty on an error response). -/
def updateTargets (r : Except HttpError PostUpdateOk) : List String :=
  match r with
  | .ok o => o.deleteTargets
  | .error _ => []

/-- Spec-side predicate, named after the claim's wording for comparison
with `update_post`: the payload touches `image_url`, the old value was the
non-null, non-empty string `s`, and the value actually changed. -/
def imgDeleteQualifies (p : Post) (u : PostUpdate) (s : String) : Prop :=
  u.image_url.isSome = true ∧ p.image_url = some s ∧ s ≠ "" ∧
    (applyPostUpdate p u).image_url ≠ some s

/-- Spec-side predicate: same as `imgDeleteQualifies` for `video_url`. -/
def vidDeleteQualifies (p : Post) (u : PostUpdate) (s : String) : Prop :=
  u.video_url.isSome = true ∧ p.video_url = some s ∧ s ≠ "" ∧
    (applyPostUpdate p u).video_url ≠ some s

instance (p : Post) (u : PostUpdate) (s : String) :
    Decidable (imgDeleteQualifies p u s) := by
  unfold imgDeleteQualifies
  infer_instance

instance (p : Post) (u : PostUpdate) (s : String) :
    Decidable (vidDeleteQualifies p u s) := by
  unfold vidDeleteQualifies
  infer_instance

theorem count_if_singleton (c : Prop) [Decidable c] (a s : String) :
    (if c then [a] else []).count s = if c ∧ a = s then 1 else 0 := by
  by_cases hc : c
  · by_cases ha : a = s
    · simp [hc, ha, List.count_cons]
    · simp [hc, ha, List.count_cons, Ne.symm ha]
  · simp [hc]

/-- C4 (amended): on an owner's post update, for any string `s`, the
number of deletion attempts against `s` is one per media field for which
`s` was the old, non-null, non-empty, actually-changed value (so two
attempts when both fields replaced the same URL); consequently a field's
new URL receives no attempt unless it coincides with the other field's
replaced old URL, and updating `image_url` to its existing value
contributes no attempt. -/
theorem update_post_media_cleanup
    (pdb : PostStore) (caller pid : Nat) (u : PostUpdate) (p : Post)
    (s : String) (env : MediaEnv)
    (hp : getPost pdb pid = some p) (hown : p.owner_id = caller) :
    (updateTargets (update_post pdb caller pid u env)).count s =
      ((if imgDeleteQualifies p u s then 1 else 0) +
        (if vidDeleteQualifies p u s then 1 else 0)) ∧
    ((applyPostUpdate p u).image_url = some s → ¬ vidDeleteQualifies p u s →
      s ∉ updateTargets (update_post pdb caller pid u env)) ∧
    ((applyPostUpdate p u).video_url = some s → ¬ imgDeleteQualifies p u s →
      s ∉ updateTargets (update_post pdb caller pid u env)) ∧
    (u.image_url = some p.image_url →
      (updateTargets (update_post pdb caller pid u env)).count s =
        (if vidDeleteQualifies p u s then 1 else 0)) := by
  have hts : updateTargets (update_post pdb caller pid u env) =
      (match (if u.image_url.isSome then p.image_url else none : Option String) with
        | none => []
        | some s0 =>
          if s0 ≠ "" ∧ (applyPostUpdate p u).image_url ≠ some s0 then [s0] else []) ++
      (match (if u.video_url.isSome then p.video_url else none : Option String) with
        | none => []
        | some s0 =>
          if s0 ≠ "" ∧ (applyPostUpdate p u).video_url ≠ some s0 then [s0] else []) := by
    simp [updateTargets, update_post, hp, hown]
  have himg : ((match (if u.image_url.isSome then p.image_url else none : Option String) with
      | none => []
      | some s0 =>
        if s0 ≠ "" ∧ (applyPostUpdate p u).image_url ≠ some s0 then [s0] else []) :
        List String).count s =
      (if imgDeleteQualifies p u s then 1 else 0) := by
    rcases hiu : u.image_url with _ | iv
    · simp [hiu, imgDeleteQualifies]
    · rcases hpi : p.image_url with _ | s0
      · simp [hiu, hpi, imgDeleteQualifies]
      · simp only [hiu, Option.isSome_some, if_true]
        rw [count_if_singleton]
        unfold imgDeleteQualifies
        by_cases hss : s0 = s
        · subst hss
          simp [hiu, hpi]
        · have h1 : ¬ ((s0 ≠ "" ∧ (applyPostUpdate p u).image_url ≠ some s0) ∧ s0 = s) :=
            fun h => hss h.2
          have h2 : ¬ (u.image_url.isSome = true ∧ p.image_url = some s ∧ s ≠ "" ∧
              (applyPostUpdate p u).image_url ≠ some s) := by
            intro h
            have hx := h.2.1
            rw [hpi] at hx
            exact hss (Option.some_inj.mp hx)
          simp only [h1, h2, if_false]
  have hvid : ((match (if u.video_url.isSome then p.video_url else none : Option String) with
      | none => []
      | some s0 =>
        if s0 ≠ "" ∧ (applyPostUpdate p u).video_url ≠ some s0 then [s0] else []) :
        List String).count s =
      (if vidDeleteQualifies p u s then 1 else 0) := by
    rcases hiu : u.video_url with _ | iv
    · simp [hiu, vidDeleteQualifies]
    · rcases hpi : p.video_url with _ | s0
      · simp [hiu, hpi, vidDeleteQualifies]
      · simp only [hiu, Option.isSome_some, if_true]
        rw [count_if_singleton]
        unfold vidDeleteQualifies
        by_cases hss : s0 = s
        · subst hss
          simp [hiu, hpi]
        · have h1 : ¬ ((s0 ≠ "" ∧ (applyPostUpdate p u).video_url ≠ some s0) ∧ s0 = s) :=
            fun h => hss h.2
          have h2 : ¬ (u.video_url.isSome = true ∧ p.video_url = some s ∧ s ≠ "" ∧
              (applyPostUpdate p u).video_url ≠ some s) := by
            intro h
            have hx := h.2.1
            rw [hpi] at hx
            exact hss (Option.some_inj.mp hx)
          simp only [h1, h2, if_false]
  have hcount : (updateTargets (update_post pdb caller pid u env)).count s =
      ((if imgDeleteQualifies p u s then 1 else 0) +
        (if vidDeleteQualifies p u s then 1 else 0)) := by
    rw [hts, List.count_append, himg, hvid]
  refine ⟨hcount, ?_, ?_, ?_⟩
  · intro hnew hnv
    have hzero : (updateTargets (update_post pdb caller pid u env)).count s = 0 := by
      rw [hcount]
      have hni : ¬ imgDeleteQualifies p u s := by
        intro hq
        exact hq.2.2.2 hnew
      simp [hni, hnv]
    exact List.count_eq_zero.mp hzero
  · intro hnew hni
    have hzero : (updateTargets (update_post pdb caller pid u env)).count s = 0 := by
      rw [hcount]
      have hnv : ¬ vidDeleteQualifies p u s := by
        intro hq
        exact hq.2.2.2 hnew
      simp [hni, hnv]
    exact List.count_eq_zero.mp hzero
  · intro hsame
    rw [hcount]
    have hni : ¬ imgDeleteQualifies p u s := by
      intro hq
      have : (applyPostUpdate p u).image_url = p.image_url := by
        simp [applyPostUpdate, hsame]
      exact hq.2.2.2 (by rw [this, hq.2.1])
    simp [hni]

/-- C4 witness: the amended characterization applied to a concrete owner
update changing `image_url` from "A" to "B". -/
theorem update_post_media_cleanup_witness :
    (updateTargets (update_post [(1, ⟨"t", none, some "A", none, 7⟩)] 7 1
        ⟨none, none, some (some "B"), none⟩ ⟨"", none⟩)).count "A" =
      ((if imgDeleteQualifies ⟨"t", none, some "A", none, 7⟩
            ⟨none, none, some (some "B"), none⟩ "A" then 1 else 0) +
        (if vidDeleteQualifies ⟨"t", none, some "A", none, 7⟩
            ⟨none, none, some (some "B"), none⟩ "A" then 1 else 0)) ∧
    ((applyPostUpdate ⟨"t", none, some "A", none, 7⟩
        ⟨none, none, some (some "B"), none⟩).image_url = some "A" →
      ¬ vidDeleteQualifies ⟨"t", none, some "A", none, 7⟩
          ⟨none, none, some (some "B"), none⟩ "A" →
      "A" ∉ updateTargets (update_post [(1, ⟨"t", none, some "A", none, 7⟩)] 7 1
          ⟨none, none, some (some "B"), none⟩ ⟨"", none⟩)) ∧
    ((applyPostUpdate ⟨"t", none, some "A", none, 7⟩
        ⟨none, none, some (some "B"), none⟩).video_url = some "A" →
      ¬ imgDeleteQualifies ⟨"t", none, some "A", none, 7⟩
          ⟨none, none, some (some "B"), none⟩ "A" →
      "A" ∉ updateTargets (update_post [(1, ⟨"t", none, some "A", none, 7⟩)] 7 1
          ⟨none, none, some (some "B"), none⟩ ⟨"", none⟩)) ∧
    ((⟨none, none, some (some "B"), none⟩ : PostUpdate).image_url =
        some (⟨"t", none, some "A", none, 7⟩ : Post).image_url →
      (updateTargets (update_post [(1, ⟨"t", none, some "A", none, 7⟩)] 7 1
          ⟨none, none, some (some "B"), none⟩ ⟨"", none⟩)).count "A" =
        (if vidDeleteQualifies ⟨"t", none, some "A", none, 7⟩
            ⟨none, none, some (some "B"), none⟩ "A" then 1 else 0)) :=
  update_post_media_cleanup [(1, ⟨"t", none, some "A", none, 7⟩)] 7 1
    ⟨none, none, some (some "B"), none⟩ ⟨"t", none, some "A", none, 7⟩ "A"
    ⟨"", none⟩ (by decide) (by decide)

/-- C4 counterexample: with post 1 holding image "A" and video "B", an
owner update setting image to "B" and video to "C" issues the deletion
attempts ["A", "B"] — "B" is the post-update image URL, so a deletion
attempt IS issued against the new URL; and with post 2 holding the
non-null empty-string image URL, changing it issues zero attempts. Both
refute the claim as stated. -/
theorem update_post_media_counterexample :
    updateTargets (update_post [(1, ⟨"t", none, some "A", some "B", 7⟩)] 7 1
        ⟨none, none, some (some "B"), some (some "C")⟩ ⟨"", none⟩) = ["A", "B"] ∧
    (applyPostUpdate ⟨"t", none, some "A", some "B", 7⟩
        ⟨none, none, some (some "B"), some (some "C")⟩).image_url = some "B" ∧
    "B" ∈ updateTargets (update_post [(1, ⟨"t", none, some "A", some "B", 7⟩)] 7 1
        ⟨none, none, some (some "B"), some (some "C")⟩ ⟨"", none⟩) ∧
    (⟨"t", none, some "", none, 7⟩ : Post).image_url ≠ none ∧
    updateTargets (update_post [(2, ⟨"t", none, some "", none, 7⟩)] 7 2
        ⟨none, none, some (some "X"), none⟩ ⟨"", none⟩) = [] := by
  decide

/-- Deletion targets of a delete result (empty on an error response). -/
def deleteTargetsOf (r : Except HttpError PostDeleteOk) : List String :=
  match r with
  | .ok o => o.deleteTargets
  | .error _ => []

/-- Posts table after a delete result (`none` on an error response). -/
def dbOfDelete (r : Except HttpError PostDeleteOk) : Option PostStore :=
  match r with
  | .ok o => some o.db
  | .error _ => none

/-- C8 (amended): on an owner's post delete, both media URLs are captured
from the pre-delete row; after the row deletion, for any string `s` the
number of scheduled deletion attempts against `s` is one per captured
media field whose value was the non-null, non-empty string `s`; the
database outcome is exactly the row removal and the request succeeds —
and both are identical for every media-store environment, including ones
where the client is unavailable, the lookup finds zero matches, or the
client raises: media failures are swallowed and never affect the primary
mutation or the response. -/
theorem delete_post_media_cleanup
    (pdb : PostStore) (caller pid : Nat) (p : Post) (s : String)
    (env env2 : MediaEnv)
    (hp : getPost pdb pid = some p) (hown : p.owner_id = caller) :
    (deleteTargetsOf (delete_post pdb caller pid env)).count s =
      ((if p.image_url = some s ∧ s ≠ "" then 1 else 0) +
        (if p.video_url = some s ∧ s ≠ "" then 1 else 0)) ∧
    dbOfDelete (delete_post pdb caller pid env) = some (erasePost pdb pid) ∧
    isOkE (delete_post pdb caller pid env) = true ∧
    dbOfDelete (delete_post pdb caller pid env2) =
      dbOfDelete (delete_post pdb caller pid env) ∧
    deleteTargetsOf (delete_post pdb caller pid env2) =
      deleteTargetsOf (delete_post pdb caller pid env) ∧
    isOkE (delete_post pdb caller pid env2) = true := by
  have htgt : ∀ e : MediaEnv, deleteTargetsOf (delete_post pdb caller pid e) =
      (match p.image_url with
        | none => []
        | some s0 => if s0 ≠ "" then [s0] else []) ++
      (match p.video_url with
        | none => []
        | some s0 => if s0 ≠ "" then [s0] else []) := by
    intro e
    simp [deleteTargetsOf, delete_post, hp, hown]
  have hdb : ∀ e : MediaEnv, dbOfDelete (delete_post pdb caller pid e) =
      some (erasePost pdb pid) := by
    intro e
    simp [dbOfDelete, delete_post, hp, hown]
  have hok : ∀ e : MediaEnv, isOkE (delete_post pdb caller pid e) = true := by
    intro e
    simp [isOkE, delete_post, hp, hown]
  have himg : ((match p.image_url with
      | none => []
      | some s0 => if s0 ≠ "" then [s0] else []) : List String).count s =
      (if p.image_url = some s ∧ s ≠ "" then 1 else 0) := by
    rcases hpi : p.image_url with _ | s0
    · simp
    · rw [count_if_singleton]
      by_cases hss : s0 = s
      · subst hss
        simp
      · have h1 : ¬ (s0 ≠ "" ∧ s0 = s) := fun h => hss h.2
        have h2 : ¬ ((some s0 : Option String) = some s ∧ s ≠ "") := by
          intro h
          exact hss (Option.some_inj.mp h.1)
        simp only [h1, h2, if_false]
  have hvid : ((match p.video_url with
      | none => []
      | some s0 => if s0 ≠ "" then [s0] else []) : List String).count s =
      (if p.video_url = some s ∧ s ≠ "" then 1 else 0) := by
    rcases hpi : p.video_url with _ | s0
    · simp
    · rw [count_if_singleton]
      by_cases hss : s0 = s
      · subst hss
        simp
      · have h1 : ¬ (s0 ≠ "" ∧ s0 = s) := fun h => hss h.2
        have h2 : ¬ ((some s0 : Option String) = some s ∧ s ≠ "") := by
          intro h
          exact hss (Option.some_inj.mp h.1)
        simp only [h1, h2, if_false]
  refine ⟨?_, hdb env, hok env, ?_, ?_, hok env2⟩
  · rw [htgt env, List.count_append, himg, hvid]
  · rw [hdb env, hdb env2]
  · rw [htgt env, htgt env2]

/-- C8 witness: the theorem applied to a concrete post with both media
URLs set, against a normal environment and one whose client raises on
every lookup. -/
theorem delete_post_media_cleanup_witness :
    (deleteTargetsOf (delete_post
        [(1, ⟨"t", none, some "https://ik.io/a", some "https://ik.io/b", 7⟩)] 7 1
        ⟨"https://ik.io", some ⟨[("/a", "f1")], [], []⟩⟩)).count "https://ik.io/a" =
      ((if (⟨"t", none, some "https://ik.io/a", some "https://ik.io/b", 7⟩ :
            Post).image_url = some "https://ik.io/a" ∧ "https://ik.io/a" ≠ ""
          then 1 else 0) +
        (if (⟨"t", none, some "https://ik.io/a", some "https://ik.io/b", 7⟩ :
            Post).video_url = some "https://ik.io/a" ∧ "https://ik.io/a" ≠ ""
          then 1 else 0)) ∧
    dbOfDelete (delete_post
        [(1, ⟨"t", none, some "https://ik.io/a", some "https://ik.io/b", 7⟩)] 7 1
        ⟨"https://ik.io", some ⟨[("/a", "f1")], [], []⟩⟩) =
      some (erasePost
        [(1, ⟨"t", none, some "https://ik.io/a", some "https://ik.io/b", 7⟩)] 1) ∧
    isOkE (delete_post
        [(1, ⟨"t", none, some "https://ik.io/a", some "https://ik.io/b", 7⟩)] 7 1
        ⟨"https://ik.io", some ⟨[("/a", "f1")], [], []⟩⟩) = true ∧
    dbOfDelete (delete_post
        [(1, ⟨"t", none, some "https://ik.io/a", some "https://ik.io/b", 7⟩)] 7 1
        ⟨"https://ik.io", some ⟨[], ["/a", "/b"], []⟩⟩) =
      dbOfDelete (delete_post
        [(1, ⟨"t", none, some "https://ik.io/a", some "https://ik.io/b", 7⟩)] 7 1
        ⟨"https://ik.io", some ⟨[("/a", "f1")], [], []⟩⟩) ∧
    deleteTargetsOf (delete_post
        [(1, ⟨"t", none, some "https://ik.io/a", some "https://ik.io/b", 7⟩)] 7 1
        ⟨"https://ik.io", some ⟨[], ["/a", "/b"], []⟩⟩) =
      deleteTargetsOf (delete_post
        [(1, ⟨"t", none, some "https://ik.io/a", some "https://ik.io/b", 7⟩)] 7 1
        ⟨"https://ik.io", some ⟨[("/a", "f1")], [], []⟩⟩) ∧
    isOkE (delete_post
        [(1, ⟨"t", none, some "https://ik.io/a", some "https://ik.io/b", 7⟩)] 7 1
        ⟨"https://ik.io", some ⟨[], ["/a", "/b"], []⟩⟩) = true :=
  delete_post_media_cleanup
    [(1, ⟨"t", none, some "https://ik.io/a", some "https://ik.io/b", 7⟩)] 7 1
    ⟨"t", none, some "https://ik.io/a", some "https://ik.io/b", 7⟩ "https://ik.io/a"
    ⟨"https://ik.io", some ⟨[("/a", "f1")], [], []⟩⟩
    ⟨"https://ik.io", some ⟨[], ["/a", "/b"], []⟩⟩
    (by decide) (by decide)

/-- C8 counterexample: a post whose image URL is the non-null empty string
and whose video URL is set; the owner's delete schedules only the video
URL — the non-null captured image URL "" receives no scheduled deletion,
refuting the claim's "every non-null captured URL" as stated. -/
theorem delete_post_media_counterexample :
    (⟨"t", none, some "", some "https://ik.io/b", 7⟩ : Post).image_url ≠ none ∧
    deleteTargetsOf (delete_post
        [(1, ⟨"t", none, some "", some "https://ik.io/b", 7⟩)] 7 1
        ⟨"https://ik.io", none⟩) = ["https://ik.io/b"] ∧
    "" ∉ deleteTargetsOf (delete_post
        [(1, ⟨"t", none, some "", some "https://ik.io/b", 7⟩)] 7 1
        ⟨"https://ik.io", none⟩) := by
  decide

/-- Modelled from the spec: the password-hashing scheme
(`fastapi_users.password.PasswordHelper`, library code not in this
repository). The spec requires only a stored hash that a submitted
password can be verified against; the hash is modelled as an injective
tagged encoding of the password. -/
def password_hash (password : String) : String :=
  "bcrypt$" ++ password

/-- Modelled from the spec: `PasswordHelper.verify_and_update` reduced to
its verification result. -/
def password_verify (password hash : String) : Bool :=
  hash == password_hash password

/-- Email lookup (`select(User).where(User.email == ...)`,
`get_by_email`): first row whose email matches, with its id. -/
def find_by_email (db : UserStore) (email : String) : Option (Nat × UserRec) :=
  db.find? (fun e => e.2.email == email)

/-- Modelled from the spec: fastapi-users `BaseUserManager.authenticate`
(library code, not in this repository). Per the spec it looks the user up
by email and verifies the password against the stored hash, failing
uniformly on unknown email or wrong password; the `is_active` check is
left to the caller (the login route). -/
def user_manager_authenticate (db : UserStore) (username password : String) :
    Option (Nat × UserRec) :=
  match find_by_email db username with
  | none => none
  | some (uid, u) =>
    if password_verify password u.hashed_password then some (uid, u) else none

/-- Modelled from the spec: an access/refresh token written by the
fastapi-users `JWTStrategy` (library code, not in this repository). The
spec's Token Codec §4.1 produces a signed, tamper-evident, deterministic
encoding of subject, issued-at and expiry; the encoding is injective on
its claims, so equality of token strings coincides with equality of this
record. Timestamps are whole seconds (JWT NumericDate). -/
structure JwtToken where
  sub : Nat
  iat : Nat
  exp : Nat
  deriving DecidableEq, Repr

/-- `get_access_token_strategy().write_token`: 900-second lifetime. -/
def write_access_token (uid now : Nat) : JwtToken :=
  ⟨uid, now, now + 900⟩

/-- `get_refresh_token_strategy().write_token`: 604800-second lifetime. -/
def write_refresh_token (uid now : Nat) : JwtToken :=
  ⟨uid, now, now + 604800⟩

/-- Refresh-strategy `read_token`: `None` on an expired token or an
unknown subject, otherwise the referenced user. -/
def read_refresh_token (db : UserStore) (t : JwtToken) (now : Nat) :
    Option (Nat × UserRec) :=
  if t.exp ≤ now then none
  else (getUser db t.sub).map (fun u => (t.sub, u))

/-- Body of a successful login/refresh response: access token and token
type in the body, plus the refresh token set as the cookie. -/
structure TokenPairOut where
  access_token : JwtToken
  token_type : String
  refresh_cookie : JwtToken
  deriving DecidableEq, Repr

/-- `login` route (app.py): authenticate via the user manager; a `None`
result or an inactive user raises 400 LOGIN_BAD_CREDENTIALS; otherwise
write both tokens and set the refresh cookie. -/
def login (db : UserStore) (username password : String) (now : Nat) :
    Except HttpError TokenPairOut :=
  match user_manager_authenticate db username password with
  | none => .error ⟨400, "LOGIN_BAD_CREDENTIALS"⟩
  | some (uid, u) =>
    if u.is_active = false then .error ⟨400, "LOGIN_BAD_CREDENTIALS"⟩
    else .ok ⟨write_access_token uid now, "bearer", write_refresh_token uid now⟩

/-- `refresh_token` route (app.py): 401 when the cookie is absent; the
`HTTPException` raised inside the `try` block for an invalid token or
inactive user is caught by the route's own `except Exception`, so every
in-`try` failure collapses to the one generic 401; otherwise write a
fresh access token and a fresh refresh cookie. -/
def refresh_token (db : UserStore) (cookie : Option JwtToken) (now : Nat) :
    Except HttpError TokenPairOut :=
  match cookie with
  | none => .error ⟨401, "Refresh token not found. Please login again."⟩
  | some tok =>
    match read_refresh_token db tok now with
    | none => .error ⟨401, "Invalid or expired refresh token. Please login again."⟩
    | some (uid, u) =>
      if u.is_active = false then
        .error ⟨401, "Invalid or expired refresh token. Please login again."⟩
      else
        .ok ⟨write_access_token uid now, "bearer", write_refresh_token uid now⟩

instance {e a : Type} [DecidableEq e] [DecidableEq a] : DecidableEq (Except e a) :=
  fun x y =>
  match x, y with
  | .error v, .error w =>
    match decEq v w with
    | isTrue h => isTrue (h ▸ rfl)
    | isFalse h => isFalse (fun hx => h (by cases hx; rfl))
  | .error _, .ok _ => isFalse (fun hx => Except.noConfusion hx)
  | .ok _, .error _ => isFalse (fun hx => Except.noConfusion hx)
  | .ok v, .ok w =>
    match decEq v w with
    | isTrue h => isTrue (h ▸ rfl)
    | isFalse h => isFalse (fun hx => h (by cases hx; rfl))

/-- Error payload of a route result (`none` on success). -/
def errOf {α : Type} : Except HttpError α → Option HttpError
  | .ok _ => none
  | .error e => some e

/-- C3: every failing login — unknown email, wrong password for a known
email, or correct credentials for an inactive user — produces the same
observable error, 400 LOGIN_BAD_CREDENTIALS; consequently no two failing
runs, over any stores and inputs, are distinguishable by the caller. -/
theorem login_uniform_failure
    (db db2 : UserStore) (e p e2 p2 : String) (now now2 : Nat) :
    (find_by_email db e = none →
      login db e p now = .error ⟨400, "LOGIN_BAD_CREDENTIALS"⟩) ∧
    ((find_by_email db e).map (fun a => password_verify p a.2.hashed_password) =
        some false →
      login db e p now = .error ⟨400, "LOGIN_BAD_CREDENTIALS"⟩) ∧
    ((find_by_email db e).map
        (fun a => (password_verify p a.2.hashed_password, a.2.is_active)) =
        some (true, false) →
      login db e p now = .error ⟨400, "LOGIN_BAD_CREDENTIALS"⟩) ∧
    (isOkE (login db e p now) = false →
      login db e p now = .error ⟨400, "LOGIN_BAD_CREDENTIALS"⟩) ∧
    (isOkE (login db e p now) = false → isOkE (login db2 e2 p2 now2) = false →
      errOf (login db e p now) = errOf (login db2 e2 p2 now2)) := by
  have huni : ∀ (d : UserStore) (a b : String) (n : Nat),
      isOkE (login d a b n) = false →
      login d a b n = .error ⟨400, "LOGIN_BAD_CREDENTIALS"⟩ := by
    intro d a b n hfail
    unfold login user_manager_authenticate at hfail ⊢
    rcases hf : find_by_email d a with _ | ⟨uid, u⟩
    · rfl
    · rcases hv : password_verify b u.hashed_password
      · simp [hv]
      · rcases hact : u.is_active
        · simp [hv, hact]
        · rw [hf] at hfail
          simp [hv, hact, isOkE] at hfail
  refine ⟨?_, ?_, ?_, huni db e p now, ?_⟩
  · intro h
    unfold login user_manager_authenticate
    rw [h]
  · intro h
    unfold login user_manager_authenticate
    rcases hf : find_by_email db e with _ | ⟨uid, u⟩
    · rfl
    · rw [hf] at h
      simp at h
      simp [h]
  · intro h
    unfold login user_manager_authenticate
    rcases hf : find_by_email db e with _ | ⟨uid, u⟩
    · rfl
    · rw [hf] at h
      simp at h
      simp [h.1, h.2]
  · intro h1 h2
    rw [huni db e p now h1, huni db2 e2 p2 now2 h2]

/-- C3 witness: the uniform-failure theorem applied to a store with one
active user, a wrong-password attempt against it and an unknown-email
attempt against an empty store. -/
theorem login_uniform_failure_witness :
    ((find_by_email [(7, ⟨"a@b.c", password_hash "pw", true, true, false, none⟩)]
        "a@b.c" = none →
      login [(7, ⟨"a@b.c", password_hash "pw", true, true, false, none⟩)]
        "a@b.c" "wrong" 5 = .error ⟨400, "LOGIN_BAD_CREDENTIALS"⟩) ∧
    ((find_by_email [(7, ⟨"a@b.c", password_hash "pw", true, true, false, none⟩)]
        "a@b.c").map
        (fun a => password_verify "wrong" a.2.hashed_password) = some false →
      login [(7, ⟨"a@b.c", password_hash "pw", true, true, false, none⟩)]
        "a@b.c" "wrong" 5 = .error ⟨400, "LOGIN_BAD_CREDENTIALS"⟩) ∧
    ((find_by_email [(7, ⟨"a@b.c", password_hash "pw", true, true, false, none⟩)]
        "a@b.c").map
        (fun a => (password_verify "wrong" a.2.hashed_password, a.2.is_active)) =
        some (true, false) →
      login [(7, ⟨"a@b.c", password_hash "pw", true, true, false, none⟩)]
        "a@b.c" "wrong" 5 = .error ⟨400, "LOGIN_BAD_CREDENTIALS"⟩) ∧
    (isOkE (login [(7, ⟨"a@b.c", password_hash "pw", true, true, false, none⟩)]
        "a@b.c" "wrong" 5) = false →
      login [(7, ⟨"a@b.c", password_hash "pw", true, true, false, none⟩)]
        "a@b.c" "wrong" 5 = .error ⟨400, "LOGIN_BAD_CREDENTIALS"⟩) ∧
    (isOkE (login [(7, ⟨"a@b.c", password_hash "pw", true, true, false, none⟩)]
        "a@b.c" "wrong" 5) = false →
      isOkE (login [] "ghost@b.c" "pw" 5) = false →
      errOf (login [(7, ⟨"a@b.c", password_hash "pw", true, true, false, none⟩)]
        "a@b.c" "wrong" 5) = errOf (login [] "ghost@b.c" "pw" 5))) :=
  login_uniform_failure
    [(7, ⟨"a@b.c", password_hash "pw", true, true, false, none⟩)] []
    "a@b.c" "wrong" "ghost@b.c" "pw" 5 5

/-- C5 (amended): a successful refresh-token exchange performed at any
second other than the submitted token's issuing second returns a refresh
token different from the one submitted, and the returned pair is the
freshly written pair for the exchange time. At the very same second the
deterministic codec reproduces the identical token, hence the amendment. -/
theorem refresh_rotation
    (db : UserStore) (uid t0 t1 : Nat) (u : UserRec)
    (hu : getUser db uid = some u) (ha : u.is_active = true)
    (hexp : t1 < t0 + 604800) (hne : t0 ≠ t1) :
    refresh_token db (some (write_refresh_token uid t0)) t1 =
      .ok ⟨write_access_token uid t1, "bearer", write_refresh_token uid t1⟩ ∧
    write_refresh_token uid t1 ≠ write_refresh_token uid t0 := by
  constructor
  · have hr : read_refresh_token db (write_refresh_token uid t0) t1 = some (uid, u) := by
      simp [read_refresh_token, write_refresh_token, Nat.not_le.mpr hexp, hu]
    simp [refresh_token, hr, ha]
  · intro h
    exact hne (congrArg JwtToken.iat h).symm

/-- C5 witness: rotation at a strictly later second on a concrete store. -/
theorem refresh_rotation_witness :
    (refresh_token [(7, ⟨"a@b.c", password_hash "pw", true, true, false, none⟩)]
        (some (write_refresh_token 7 1000)) 1001 =
      .ok ⟨write_access_token 7 1001, "bearer", write_refresh_token 7 1001⟩ ∧
    write_refresh_token 7 1001 ≠ write_refresh_token 7 1000) :=
  refresh_rotation [(7, ⟨"a@b.c", password_hash "pw", true, true, false, none⟩)]
    7 1000 1001 ⟨"a@b.c", password_hash "pw", true, true, false, none⟩
    (by decide) (by decide) (by decide) (by decide)

/-- C5 counterexample: an exchange performed at the same second the
submitted refresh token was issued succeeds and returns the identical
refresh token — the deterministic claims encoding (subject, issued-at,
expiry) reproduces the same string — refuting "the new refresh token
string is different from the submitted one" for every successful
exchange. -/
theorem refresh_rotation_counterexample :
    isOkE (refresh_token [(7, ⟨"a@b.c", "bcrypt$pw", true, true, false, none⟩)]
        (some (write_refresh_token 7 1000)) 1000) = true ∧
    refresh_token [(7, ⟨"a@b.c", "bcrypt$pw", true, true, false, none⟩)]
        (some (write_refresh_token 7 1000)) 1000 =
      .ok ⟨write_access_token 7 1000, "bearer", write_refresh_token 7 1000⟩ := by
  decide

/-- The server-side admin session (`request.session` as used by
`AdminAuthBackend`): the stored user id string and email, `none` when the
key is absent; `clear()` empties both. -/
structure AdminSession where
  user_id : Option String
  user_email : Option String
  deriving DecidableEq, Repr

namespace AdminAuthBackend

/-- `AdminAuthBackend.login` (auth_backend.py): find the user by email,
verify the password, require active and superuser; on success store the
stringified user id and email in the session. -/
def login (db : UserStore) (username password : String) (sess : AdminSession) :
    Bool × AdminSession :=
  match find_by_email db username with
  | none => (false, sess)
  | some (uid, u) =>
    if password_verify password u.hashed_password = false then (false, sess)
    else if u.is_active = false ∨ u.is_superuser = false then (false, sess)
    else (true, ⟨some (toString uid), some u.email⟩)

/-- `AdminAuthBackend.authenticate` (auth_backend.py), called on every
admin page request: a falsy session id is rejected without touching the
session; otherwise the referenced user is re-fetched
(`select(User).where(User.id == user_id)`, the stored string coerced back
to the id — session ids that do not parse match no user), and if the user
is missing, inactive or not superuser the session is cleared and the
request rejected; only a still-privileged user passes. -/
def authenticate (db : UserStore) (sess : AdminSession) : Bool × AdminSession :=
  match sess.user_id with
  | none => (false, sess)
  | some uidStr =>
    if uidStr = "" then (false, sess)
    else
      let user : Option UserRec :=
        match uuidParse uidStr with
        | none => none
        | some uid => getUser db uid
      match user with
      | none => (false, ⟨none, none⟩)
      | some u =>
        if u.is_active = false ∨ u.is_superuser = false then (false, ⟨none, none⟩)
        else (true, sess)

/-- `AdminAuthBackend.logout` (auth_backend.py): clear the session. -/
def logout (_sess : AdminSession) : Bool × AdminSession :=
  (true, ⟨none, none⟩)

end AdminAuthBackend

/-- C9: on every admin request over a session holding a (non-empty) user
id, `authenticate` returns true exactly when the referenced user still
exists, is active and is superuser — and whenever it returns false the
session is cleared in the same call, so an admin session never survives
one authenticate call past privilege loss; on success the session is left
in place. -/
theorem admin_authenticate_revalidates
    (db : UserStore) (sess : AdminSession) (uidStr : String)
    (h : sess.user_id = some uidStr) (hne : uidStr ≠ "") :
    ((AdminAuthBackend.authenticate db sess).1 = true ↔
      ((uuidParse uidStr).bind (getUser db)).map
          (fun u => u.is_active && u.is_superuser) = some true) ∧
    ((AdminAuthBackend.authenticate db sess).1 = true →
      (AdminAuthBackend.authenticate db sess).2 = sess) ∧
    ((AdminAuthBackend.authenticate db sess).1 = false →
      (AdminAuthBackend.authenticate db sess).2 = ⟨none, none⟩) := by
  unfold AdminAuthBackend.authenticate
  rw [h]
  simp only [if_neg hne]
  rcases hp : uuidParse uidStr with _ | uid
  · simp [hp]
  · rcases hu : getUser db uid with _ | u
    · simp [hu]
    · rcases hact : u.is_active <;> rcases hsup : u.is_superuser <;>
        simp [hu, hact, hsup]

/-- C9 witness: a session referencing an active superuser passes and is
kept; the equivalence, preservation and clearing clauses instantiated at
a concrete store and session. -/
theorem admin_authenticate_revalidates_witness :
    (((AdminAuthBackend.authenticate
        [(7, ⟨"root@b.c", password_hash "pw", true, true, true, none⟩)]
        ⟨some "7", some "root@b.c"⟩).1 = true ↔
      ((uuidParse "7").bind
          (getUser [(7, ⟨"root@b.c", password_hash "pw", true, true, true, none⟩)])).map
          (fun u => u.is_active && u.is_superuser) = some true) ∧
    ((AdminAuthBackend.authenticate
        [(7, ⟨"root@b.c", password_hash "pw", true, true, true, none⟩)]
        ⟨some "7", some "root@b.c"⟩).1 = true →
      (AdminAuthBackend.authenticate
        [(7, ⟨"root@b.c", password_hash "pw", true, true, true, none⟩)]
        ⟨some "7", some "root@b.c"⟩).2 = ⟨some "7", some "root@b.c"⟩) ∧
    ((AdminAuthBackend.authenticate
        [(7, ⟨"root@b.c", password_hash "pw", true, true, true, none⟩)]
        ⟨some "7", some "root@b.c"⟩).1 = false →
      (AdminAuthBackend.authenticate
        [(7, ⟨"root@b.c", password_hash "pw", true, true, true, none⟩)]
        ⟨some "7", some "root@b.c"⟩).2 = ⟨none, none⟩)) :=
  admin_authenticate_revalidates
    [(7, ⟨"root@b.c", password_hash "pw", true, true, true, none⟩)]
    ⟨some "7", some "root@b.c"⟩ "7" (by decide) (by decide)

end Fullstack
